import Mathlib

/-!
Verification development for the GTK application shell of the Transmission
BitTorrent client (src/gtk/Application.cc).  The stateful signal handlers of
`Application::Impl` are embedded as pure Lean functions: member state becomes
an explicit `ImplState` record, UI and engine side effects become explicit
effect lists, and handlers that can hit `g_assert_not_reached` return
`Option` (with `none` standing for the process abort).
-/

namespace TrGtk

/-- Torrent identifiers (`tr_torrent_id_t`); ids handed out by the engine are
positive, so they are modelled as natural numbers. -/
abbrev TorrentId := Nat

/-- The preference keys (`tr_quark`) that `Application.cc` mentions, plus a
catch-all constructor for every other quark value (quarks are interned
integers, so values outside the named set do occur). -/
inductive Quark where
  | encryption
  | default_trackers
  | download_dir
  | message_level
  | peer_port
  | blocklist_enabled
  | blocklist_url
  | show_notification_area_icon
  | speed_limit_down_enabled
  | speed_limit_down
  | speed_limit_up_enabled
  | speed_limit_up
  | ratio_limit_enabled
  | ratio_limit
  | idle_seeding_limit
  | idle_seeding_limit_enabled
  | port_forwarding_enabled
  | pex_enabled
  | rename_partial_files
  | download_queue_size
  | queue_stalled_minutes
  | dht_enabled
  | utp_enabled
  | lpd_enabled
  | rpc_port
  | rpc_enabled
  | rpc_whitelist
  | rpc_whitelist_enabled
  | rpc_username
  | rpc_password
  | rpc_authentication_required
  | alt_speed_up
  | alt_speed_down
  | alt_speed_enabled
  | alt_speed_time_begin
  | alt_speed_time_end
  | alt_speed_time_enabled
  | alt_speed_time_day
  | peer_port_random_on_start
  | incomplete_dir
  | incomplete_dir_enabled
  | script_torrent_done_enabled
  | script_torrent_done_filename
  | script_torrent_done_seeding_enabled
  | script_torrent_done_seeding_filename
  | start_added_torrents
  | trash_original_torrent_files
  | show_options_window
  | method
  | arguments
  | ids
  | other (n : Nat)

/-- A numeric code for `Quark`, used only to decide equality without the
enormous derived double-match. -/
def Quark.code : Quark → Nat
  | Quark.encryption => 0
  | Quark.default_trackers => 1
  | Quark.download_dir => 2
  | Quark.message_level => 3
  | Quark.peer_port => 4
  | Quark.blocklist_enabled => 5
  | Quark.blocklist_url => 6
  | Quark.show_notification_area_icon => 7
  | Quark.speed_limit_down_enabled => 8
  | Quark.speed_limit_down => 9
  | Quark.speed_limit_up_enabled => 10
  | Quark.speed_limit_up => 11
  | Quark.ratio_limit_enabled => 12
  | Quark.ratio_limit => 13
  | Quark.idle_seeding_limit => 14
  | Quark.idle_seeding_limit_enabled => 15
  | Quark.port_forwarding_enabled => 16
  | Quark.pex_enabled => 17
  | Quark.rename_partial_files => 18
  | Quark.download_queue_size => 19
  | Quark.queue_stalled_minutes => 20
  | Quark.dht_enabled => 21
  | Quark.utp_enabled => 22
  | Quark.lpd_enabled => 23
  | Quark.rpc_port => 24
  | Quark.rpc_enabled => 25
  | Quark.rpc_whitelist => 26
  | Quark.rpc_whitelist_enabled => 27
  | Quark.rpc_username => 28
  | Quark.rpc_password => 29
  | Quark.rpc_authentication_required => 30
  | Quark.alt_speed_up => 31
  | Quark.alt_speed_down => 32
  | Quark.alt_speed_enabled => 33
  | Quark.alt_speed_time_begin => 34
  | Quark.alt_speed_time_end => 35
  | Quark.alt_speed_time_enabled => 36
  | Quark.alt_speed_time_day => 37
  | Quark.peer_port_random_on_start => 38
  | Quark.incomplete_dir => 39
  | Quark.incomplete_dir_enabled => 40
  | Quark.script_torrent_done_enabled => 41
  | Quark.script_torrent_done_filename => 42
  | Quark.script_torrent_done_seeding_enabled => 43
  | Quark.script_torrent_done_seeding_filename => 44
  | Quark.start_added_torrents => 45
  | Quark.trash_original_torrent_files => 46
  | Quark.show_options_window => 47
  | Quark.method => 48
  | Quark.arguments => 49
  | Quark.ids => 50
  | Quark.other n => n + 51

/-- Decode a `Quark` code; inverse of `Quark.code`. -/
def Quark.ofCode : Nat → Quark
  | 0 => Quark.encryption
  | 1 => Quark.default_trackers
  | 2 => Quark.download_dir
  | 3 => Quark.message_level
  | 4 => Quark.peer_port
  | 5 => Quark.blocklist_enabled
  | 6 => Quark.blocklist_url
  | 7 => Quark.show_notification_area_icon
  | 8 => Quark.speed_limit_down_enabled
  | 9 => Quark.speed_limit_down
  | 10 => Quark.speed_limit_up_enabled
  | 11 => Quark.speed_limit_up
  | 12 => Quark.ratio_limit_enabled
  | 13 => Quark.ratio_limit
  | 14 => Quark.idle_seeding_limit
  | 15 => Quark.idle_seeding_limit_enabled
  | 16 => Quark.port_forwarding_enabled
  | 17 => Quark.pex_enabled
  | 18 => Quark.rename_partial_files
  | 19 => Quark.download_queue_size
  | 20 => Quark.queue_stalled_minutes
  | 21 => Quark.dht_enabled
  | 22 => Quark.utp_enabled
  | 23 => Quark.lpd_enabled
  | 24 => Quark.rpc_port
  | 25 => Quark.rpc_enabled
  | 26 => Quark.rpc_whitelist
  | 27 => Quark.rpc_whitelist_enabled
  | 28 => Quark.rpc_username
  | 29 => Quark.rpc_password
  | 30 => Quark.rpc_authentication_required
  | 31 => Quark.alt_speed_up
  | 32 => Quark.alt_speed_down
  | 33 => Quark.alt_speed_enabled
  | 34 => Quark.alt_speed_time_begin
  | 35 => Quark.alt_speed_time_end
  | 36 => Quark.alt_speed_time_enabled
  | 37 => Quark.alt_speed_time_day
  | 38 => Quark.peer_port_random_on_start
  | 39 => Quark.incomplete_dir
  | 40 => Quark.incomplete_dir_enabled
  | 41 => Quark.script_torrent_done_enabled
  | 42 => Quark.script_torrent_done_filename
  | 43 => Quark.script_torrent_done_seeding_enabled
  | 44 => Quark.script_torrent_done_seeding_filename
  | 45 => Quark.start_added_torrents
  | 46 => Quark.trash_original_torrent_files
  | 47 => Quark.show_options_window
  | 48 => Quark.method
  | 49 => Quark.arguments
  | 50 => Quark.ids
  | n => Quark.other (n - 51)

instance : DecidableEq Quark := fun a b =>
  if h : a.code = b.code then
    isTrue (by
      have ha : Quark.ofCode a.code = a := by cases a <;> rfl
      have hb : Quark.ofCode b.code = b := by cases b <;> rfl
      rw [← ha, h, hb])
  else
    isFalse (fun he => h (congrArg Quark.code he))

/-- Torrent activity values (`tr_torrent_activity` / `TR_STATUS_*`). -/
inductive Activity where
  | stopped
  | check_wait
  | check
  | download_wait
  | download
  | seed_wait
  | seed
deriving DecidableEq

/-- One selected row of the main-window torrent model: the columns of
`torrent_cols` that `Application.cc` reads, together with the per-torrent
manual-update eligibility used for the reannounce action. -/
structure Row where
  torrent_id : TorrentId
  activity : Activity
  can_manual_update : Bool
deriving DecidableEq

/-- Embeds `Application::Impl::counts_data` (three `int` counters,
zero-initialised). -/
structure counts_data where
  total_count : Int := 0
  queued_count : Int := 0
  stopped_count : Int := 0
deriving DecidableEq

/-- The body of the `selected_foreach` lambda in
`Application::Impl::get_selected_torrent_counts`: every row increments
`total_count`; a download-wait or seed-wait row increments `queued_count`;
a stopped row increments `stopped_count`. -/
def count_row (c : counts_data) (r : Row) : counts_data :=
  let c1 : counts_data := { c with total_count := c.total_count + 1 }
  let c2 : counts_data :=
    if r.activity = Activity.download_wait ∨ r.activity = Activity.seed_wait then
      { c1 with queued_count := c1.queued_count + 1 }
    else c1
  if r.activity = Activity.stopped then
    { c2 with stopped_count := c2.stopped_count + 1 }
  else c2

/-- Embeds `Application::Impl::get_selected_torrent_counts`: fold the
counting lambda over the selected rows in selection order. -/
def get_selected_torrent_counts (sel : List Row) : counts_data :=
  sel.foldl count_row {}

/-- Predicate for the queued activities tested by the counting lambda. -/
def is_queued_row (r : Row) : Bool :=
  r.activity = Activity.download_wait ∨ r.activity = Activity.seed_wait

/-- Predicate for the stopped activity tested by the counting lambda. -/
def is_stopped_row (r : Row) : Bool :=
  r.activity = Activity.stopped

/-- Embeds the `canUpdate` fold in `Application::Impl::refresh_actions`. -/
def can_update_fold (sel : List Row) : Bool :=
  sel.foldl (fun b r => b || r.can_manual_update) false

/-- The member state of `Application::Impl` that the verified handlers touch.
`sigc::connection` members are modelled by their connected flag, dialog and
window members by presence flags, and the details-dialog map by an
association list from key string to a dialog identity. -/
structure ImplState where
  is_closing : Bool
  timer_connected : Bool
  refresh_tag_connected : Bool
  error_list : List String
  duplicates_list : List String
  details : List (String × Nat)
  next_dialog_id : Nat
  icon_present : Bool
  prefs_open : Bool
  window_open : Bool
  core_alive : Bool
  app_held : Bool
deriving DecidableEq

/-- A concrete running-application state, used to instantiate theorems with
hypotheses at concrete inputs. -/
def impl0 : ImplState :=
  { is_closing := false
    timer_connected := true
    refresh_tag_connected := false
    error_list := []
    duplicates_list := []
    details := []
    next_dialog_id := 0
    icon_present := false
    prefs_open := false
    window_open := true
    core_alive := true
    app_held := true }

/-- One `gtr_action_set_sensitive` call. -/
structure SensEffect where
  action : String
  sensitive : Bool
deriving DecidableEq

/-- Core-session numbers read at the top of `refresh_actions`:
`get_torrent_count`, `get_active_torrent_count`, and the size of the
tree model. -/
structure CoreSnapshot where
  torrent_total : Nat
  active_count : Nat
  model_count : Nat
deriving DecidableEq

/-- Embeds `Application::Impl::refresh_actions`: when not closing, recompute
every action sensitivity from the selection counts; in all cases disconnect
`refresh_actions_tag_` and return `false` (one-shot idle source). -/
def refresh_actions (st : ImplState) (core : CoreSnapshot) (sel : List Row) :
    ImplState × List SensEffect × Bool :=
  let effects :=
    if st.is_closing then []
    else
      let sel_counts := get_selected_torrent_counts sel
      let has_selection := sel_counts.total_count > 0
      [ ⟨"select-all", core.model_count ≠ 0⟩,
        ⟨"deselect-all", core.model_count ≠ 0⟩,
        ⟨"pause-all-torrents", core.active_count ≠ 0⟩,
        ⟨"start-all-torrents", core.active_count ≠ core.torrent_total⟩,
        ⟨"torrent-stop", sel_counts.stopped_count < sel_counts.total_count⟩,
        ⟨"torrent-start", sel_counts.stopped_count > 0⟩,
        ⟨"torrent-start-now", sel_counts.stopped_count + sel_counts.queued_count > 0⟩,
        ⟨"torrent-verify", has_selection⟩,
        ⟨"remove-torrent", has_selection⟩,
        ⟨"delete-torrent", has_selection⟩,
        ⟨"relocate-torrent", has_selection⟩,
        ⟨"queue-move-top", has_selection⟩,
        ⟨"queue-move-up", has_selection⟩,
        ⟨"queue-move-down", has_selection⟩,
        ⟨"queue-move-bottom", has_selection⟩,
        ⟨"show-torrent-properties", has_selection⟩,
        ⟨"open-torrent-folder", sel_counts.total_count = 1⟩,
        ⟨"copy-magnet-link-to-clipboard", sel_counts.total_count = 1⟩,
        ⟨"torrent-reannounce", can_update_fold sel⟩ ]
  ({ st with refresh_tag_connected := false }, effects, false)

/-- Embeds `Application::Impl::refresh_actions_soon`: schedule a one-shot
idle refresh unless closing or already scheduled. -/
def refresh_actions_soon (st : ImplState) : ImplState :=
  if st.is_closing = false ∧ st.refresh_tag_connected = false then
    { st with refresh_tag_connected := true }
  else st

/-- Look up the sensitivity assigned to a named action in an effect list. -/
def sens_lookup (effects : List SensEffect) (a : String) : Option Bool :=
  (effects.find? (fun e => e.action = a)).map SensEffect.sensitive

/-! ### Details-dialog key (`get_details_dialog_key`)

`operator<<(std::ostream, int)` prints the decimal digits of the id; the
digit writer is embedded with explicit fuel (the value itself bounds the
recursion depth) so that it reduces on concrete inputs. -/

/-- The character for decimal digit `d`. -/
def digit_char (d : Nat) : Char := Char.ofNat (48 + d)

/-- Fuelled decimal rendering: most significant digit first. -/
def nat_chars_aux : Nat → Nat → List Char
  | 0, n => [digit_char n]
  | fuel + 1, n =>
    if n < 10 then [digit_char n]
    else nat_chars_aux fuel (n / 10) ++ [digit_char (n % 10)]

/-- The decimal digits of `n`, as written by the output stream operator. -/
def nat_chars (n : Nat) : List Char := nat_chars_aux n n

/-- The number denoted by a digit string, used to invert `nat_chars`. -/
def chars_val (cs : List Char) : Nat :=
  cs.foldl (fun acc c => 10 * acc + (c.toNat - 48)) 0

/-- The character stream produced by the loop body of
`get_details_dialog_key`: each id is written followed by one space. -/
def id_tokens : List Nat → List Char
  | [] => []
  | id :: rest => nat_chars id ++ ' ' :: id_tokens rest

/-- Embeds `get_details_dialog_key`: sort a copy of the id list, then stream
every id followed by a space (`std::sort` on integers is extensionally the
unique sorted permutation, realised here by insertion sort). -/
def get_details_dialog_key (id_list : List Nat) : String :=
  String.mk (id_tokens (id_list.insertionSort (· ≤ ·)))

/-- What `show_details_dialog_for_selected_torrents` does after computing the
key: either present the already-open dialog, or create, register and show a
new one. -/
inductive DetailsAction where
  | create_and_present (key : String) (torrents : List Nat) (dialog : Nat)
  | present_existing (dialog : Nat)
deriving DecidableEq

/-- Embeds `Application::Impl::show_details_dialog_for_selected_torrents`:
look the key up in `details_`; on a miss create a dialog for the ids, store
it under the key and show it; in both cases present the dialog found under
the key. -/
def show_details_dialog_for_selected_torrents (st : ImplState) (sel_ids : List Nat) :
    ImplState × DetailsAction :=
  let key := get_details_dialog_key sel_ids
  match st.details.lookup key with
  | some dialog => (st, DetailsAction.present_existing dialog)
  | none =>
    ({ st with details := (key, st.next_dialog_id) :: st.details,
               next_dialog_id := st.next_dialog_id + 1 },
     DetailsAction.create_and_present key sel_ids st.next_dialog_id)

/-! ### Add-error batching (`on_core_error`, `flush_torrent_errors`) -/

/-- The `Session::ErrorCode` values switched on by `on_core_error`, plus a
catch-all for every other value of the underlying C enum. -/
inductive ErrorCode where
  | err_add_torrent_err
  | err_add_torrent_dup
  | err_no_more_torrents
  | other (n : Nat)
deriving DecidableEq

/-- Model of `Glib::path_get_basename`: the last nonempty slash-separated
component of the path (with the glib fallbacks for degenerate paths). -/
def path_get_basename (s : String) : String :=
  ((s.splitOn "/").filter (fun p => p ≠ "")).getLastD (if s = "" then "." else "/")

/-- An error dialog raised by `show_torrent_errors`: the ngettext primary
text is determined by the category and the file count, and the secondary
text lists the affected file names. -/
inductive ErrorsDialog where
  | corrupt_torrents (count : Nat) (files : List String)
  | duplicate_torrents (count : Nat) (files : List String)
deriving DecidableEq

/-- Embeds `Application::Impl::flush_torrent_errors`: a nonempty error list
is shown in one corrupt-torrents dialog and cleared (the clearing happens in
`show_torrent_errors`, which empties the vector it was passed by reference);
then likewise for the duplicates list. -/
def flush_torrent_errors (st : ImplState) : ImplState × List ErrorsDialog :=
  let step1 :=
    if st.error_list.isEmpty then (st, ([] : List ErrorsDialog))
    else ({ st with error_list := [] },
          [ErrorsDialog.corrupt_torrents st.error_list.length st.error_list])
  let st1 := step1.1
  let step2 :=
    if st1.duplicates_list.isEmpty then (st1, ([] : List ErrorsDialog))
    else ({ st1 with duplicates_list := [] },
          [ErrorsDialog.duplicate_torrents st1.duplicates_list.length st1.duplicates_list])
  (step2.1, step1.2 ++ step2.2)

/-- Embeds `Application::Impl::on_core_error`: corrupt-add errors append the
basename of the message to the error list, duplicate-add errors append the
message to the duplicates list, the no-more-torrents event flushes both
lists, and any other code hits `g_assert_not_reached` (modelled as `none`). -/
def on_core_error (st : ImplState) (code : ErrorCode) (msg : String) :
    Option (ImplState × List ErrorsDialog) :=
  match code with
  | ErrorCode.err_add_torrent_err =>
    some ({ st with error_list := st.error_list ++ [path_get_basename msg] }, [])
  | ErrorCode.err_add_torrent_dup =>
    some ({ st with duplicates_list := st.duplicates_list ++ [msg] }, [])
  | ErrorCode.err_no_more_torrents => some (flush_torrent_errors st)
  | ErrorCode.other _ => none

/-- Deliver a sequence of core-error events, accumulating the dialogs shown;
an abort anywhere aborts the whole run. -/
def run_core_errors (st : ImplState) : List (ErrorCode × String) → Option (ImplState × List ErrorsDialog)
  | [] => some (st, [])
  | (code, msg) :: rest =>
    match on_core_error st code msg with
    | none => none
    | some (st1, ds) =>
      match run_core_errors st1 rest with
      | none => none
      | some (st2, ds2) => some (st2, ds ++ ds2)

/-- The basenames accumulated from the corrupt-add events of a sequence, in
delivery order. -/
def corrupt_basenames : List (ErrorCode × String) → List String
  | [] => []
  | (ErrorCode.err_add_torrent_err, msg) :: rest => path_get_basename msg :: corrupt_basenames rest
  | _ :: rest => corrupt_basenames rest

/-- The messages accumulated from the duplicate-add events of a sequence, in
delivery order. -/
def duplicate_messages : List (ErrorCode × String) → List String
  | [] => []
  | (ErrorCode.err_add_torrent_dup, msg) :: rest => msg :: duplicate_messages rest
  | _ :: rest => duplicate_messages rest

/-- An event is one of the two add-error categories. -/
def is_add_error (code : ErrorCode) : Bool :=
  code = ErrorCode.err_add_torrent_err ∨ code = ErrorCode.err_add_torrent_dup

/-! ### Application exit (`on_app_exit`, `on_session_closed`) -/

/-- The side effects of the non-early-return path of `on_app_exit`, in
program order.  The widget surgery that replaces the window content with the
closing screen is collapsed into one effect. -/
inductive ExitEffect where
  | disconnect_timer
  | disconnect_refresh_tag
  | build_closing_screen
  | core_clear
  | place_window_from_prefs
  | spawn_close_thread
deriving DecidableEq

/-- Embeds `Application::Impl::on_app_exit`: return immediately when already
closing, otherwise set the closing flag, disconnect the two timers, swap in
the closing screen, clear the UI model, restore the window geometry, and
spawn the background close thread. -/
def on_app_exit (st : ImplState) : ImplState × List ExitEffect :=
  if st.is_closing then (st, [])
  else
    ({ st with is_closing := true, timer_connected := false, refresh_tag_connected := false },
     [ExitEffect.disconnect_timer, ExitEffect.disconnect_refresh_tag,
      ExitEffect.build_closing_screen, ExitEffect.core_clear,
      ExitEffect.place_window_from_prefs, ExitEffect.spawn_close_thread])

/-- Embeds `Application::Impl::on_session_closed`: clear the details
dialogs, the prefs dialog, the main window, the session core, the tray icon
and both error lists, release the application hold, and return `false` to
remove the idle source. -/
def on_session_closed (st : ImplState) : ImplState × Bool :=
  ({ st with details := [], prefs_open := false, window_open := false,
             core_alive := false, icon_present := false,
             error_list := [], duplicates_list := [], app_held := false },
   false)

/-- The two instructions of the detached close thread spawned by
`on_app_exit`: the blocking `tr_sessionClose` call, then connecting
`on_session_closed` as an idle callback on the UI loop. -/
inductive CloseInstr where
  | call_session_close
  | connect_idle_session_closed
deriving DecidableEq

/-- Observable events of the shutdown interleaving. -/
inductive CloseEvent where
  | session_close_returned
  | ui_torn_down
deriving DecidableEq

/-- The body of the detached thread, in program order. -/
def exit_thread_body : List CloseInstr :=
  [CloseInstr.call_session_close, CloseInstr.connect_idle_session_closed]

/-- State of the two-thread shutdown system: the remaining thread program,
the number of pending idle callbacks on the UI loop, the Impl state, and the
event trace. -/
structure CloseMachine where
  thread_prog : List CloseInstr
  idle_queue : Nat
  impl : ImplState
  trace : List CloseEvent
deriving DecidableEq

/-- The machine as left by `on_app_exit`: the thread is about to run its
body, no idle callback is pending yet. -/
def close_machine_init (st : ImplState) : CloseMachine :=
  { thread_prog := exit_thread_body, idle_queue := 0, impl := st, trace := [] }

/-- Interleaving semantics: the background thread may run its next
instruction, and the UI loop may run a pending idle callback (which executes
`on_session_closed`, i.e. the UI teardown). -/
inductive CloseStep : CloseMachine → CloseMachine → Prop where
  | run_close (m : CloseMachine) (rest : List CloseInstr)
      (h : m.thread_prog = CloseInstr.call_session_close :: rest) :
      CloseStep m { m with thread_prog := rest,
                           trace := m.trace ++ [CloseEvent.session_close_returned] }
  | run_connect (m : CloseMachine) (rest : List CloseInstr)
      (h : m.thread_prog = CloseInstr.connect_idle_session_closed :: rest) :
      CloseStep m { m with thread_prog := rest, idle_queue := m.idle_queue + 1 }
  | run_idle (m : CloseMachine) (h : 0 < m.idle_queue) :
      CloseStep m { m with idle_queue := m.idle_queue - 1,
                           impl := (on_session_closed m.impl).1,
                           trace := m.trace ++ [CloseEvent.ui_torn_down] }

/-- Reachability in the shutdown system. -/
def CloseReach (a b : CloseMachine) : Prop := Relation.ReflTransGen CloseStep a b

/-- Invariant of the shutdown system started from `st0`: the four
configurations the interleaving can reach. -/
def close_inv (st0 : ImplState) (m : CloseMachine) : Prop :=
  (m.thread_prog = exit_thread_body ∧ m.idle_queue = 0 ∧ m.impl = st0 ∧ m.trace = []) ∨
  (m.thread_prog = [CloseInstr.connect_idle_session_closed] ∧ m.idle_queue = 0 ∧
    m.impl = st0 ∧ m.trace = [CloseEvent.session_close_returned]) ∨
  (m.thread_prog = [] ∧ m.idle_queue = 1 ∧ m.impl = st0 ∧
    m.trace = [CloseEvent.session_close_returned]) ∨
  (m.thread_prog = [] ∧ m.idle_queue = 0 ∧ m.impl = (on_session_closed st0).1 ∧
    m.trace = [CloseEvent.session_close_returned, CloseEvent.ui_torn_down])

/-! ### RPC change relay (`on_rpc_changed_idle`) -/

/-- The `tr_rpc_callback_type` values switched on by `on_rpc_changed_idle`,
plus a catch-all for every other value of the underlying C enum. -/
inductive RpcCallbackType where
  | session_close
  | torrent_added
  | torrent_removing
  | torrent_trashing
  | session_changed
  | torrent_changed
  | torrent_moved
  | torrent_started
  | torrent_stopped
  | session_queue_positions_changed
  | other (n : Nat)
deriving DecidableEq

/-- The side effects of `on_rpc_changed_idle`, in program order. -/
inductive RpcIdleEffect where
  | activate_quit
  | core_add_torrent (torrent_id : TorrentId)
  | core_remove_torrent (torrent_id : TorrentId) (delete_files : Bool)
  | refresh_prefs_from_session
  | emit_prefs_changed (key : Quark)
deriving DecidableEq

/-- The key-selection loop of the `TR_RPC_SESSION_CHANGED` branch: walk the
freshly fetched session-settings dictionary in order; a key is collected
when it is absent from the old preferences dictionary, or when the
serializations (`tr_variantToStr`, applied to both sides with the same
format) of old and new value differ.  The serializer lives outside this
translation unit and is therefore a parameter. -/
def session_changed_keys {V : Type} (toStr : V → String)
    (new_dict old_vals : List (Quark × V)) : List Quark :=
  (new_dict.filter (fun kv =>
    match old_vals.lookup kv.1 with
    | none => true
    | some old_val => toStr old_val ≠ toStr kv.2)).map Prod.fst

/-- Embeds `Application::Impl::on_rpc_changed_idle`.  Parameters supply what
the handler reads from its environment: the serializer, the fresh session
settings, the old preferences dictionary, and whether `find_torrent` finds
the id.  Returns `none` on `g_assert_not_reached`, otherwise the effects in
order and the `false` that removes the idle source. -/
def on_rpc_changed_idle {V : Type} (toStr : V → String)
    (session_settings old_vals : List (Quark × V)) (torrent_found : Bool)
    (type : RpcCallbackType) (torrent_id : TorrentId) :
    Option (List RpcIdleEffect × Bool) :=
  match type with
  | RpcCallbackType.session_close => some ([RpcIdleEffect.activate_quit], false)
  | RpcCallbackType.torrent_added =>
    some (if torrent_found then [RpcIdleEffect.core_add_torrent torrent_id] else [], false)
  | RpcCallbackType.torrent_removing =>
    some ([RpcIdleEffect.core_remove_torrent torrent_id false], false)
  | RpcCallbackType.torrent_trashing =>
    some ([RpcIdleEffect.core_remove_torrent torrent_id true], false)
  | RpcCallbackType.session_changed =>
    some (RpcIdleEffect.refresh_prefs_from_session ::
            (session_changed_keys toStr session_settings old_vals).map
              RpcIdleEffect.emit_prefs_changed,
          false)
  | RpcCallbackType.torrent_changed => some ([], false)
  | RpcCallbackType.torrent_moved => some ([], false)
  | RpcCallbackType.torrent_started => some ([], false)
  | RpcCallbackType.torrent_stopped => some ([], false)
  | RpcCallbackType.session_queue_positions_changed => some ([], false)
  | RpcCallbackType.other _ => none

/-! ### Selected-torrent RPC requests (`call_rpc_for_selected_torrents`) -/

/-- A `tr_variant` value as built by this translation unit. -/
inductive Variant where
  | int (i : Int)
  | str (s : String)
  | list (items : List Variant)
  | dict (entries : List (Quark × Variant))

/-- Embeds `Application::Impl::call_rpc_for_selected_torrents`: build the
ids list by appending each selected torrent id in selection order, wrap it
in `arguments` under a `method` entry, execute the request via
`tr_rpc_request_exec_json` exactly when the ids list is nonempty, and
return whether it was executed together with the executed requests. -/
def call_rpc_for_selected_torrents (method_name : String) (sel : List Row) :
    Bool × List Variant :=
  let ids_list := sel.foldl (fun acc r => acc ++ [Variant.int (r.torrent_id : Int)]) []
  let top := Variant.dict
    [(Quark.method, Variant.str method_name),
     (Quark.arguments, Variant.dict [(Quark.ids, Variant.list ids_list)])]
  if ids_list.length ≠ 0 then (true, [top]) else (false, [])

/-- The dispatch target of one branch of `actions_handler`. -/
inductive ActionDispatch where
  | open_torrent_from_url_dialog
  | open_torrent_dialog
  | stats_dialog
  | donate
  | pause_all
  | start_all
  | copy_magnet_link
  | relocate_dialog
  | rpc_for_selected (method_name : String)
  | open_folder_for_selected
  | details_for_selected
  | make_dialog
  | remove_selected (delete_files : Bool)
  | quit
  | select_all
  | deselect_all
  | prefs_dialog
  | toggle_message_log
  | about_dialog
  | open_help
  | toggle_main_window
  | present_main_window
  | unhandled_action_error (name : String)

/-- Embeds the if-else chain of `Application::Impl::actions_handler`,
mapping each action name to what its branch does.  The nine torrent
actions share one branch that forwards the action name itself as the RPC
method. -/
def actions_handler_dispatch (action_name : String) : ActionDispatch :=
  if action_name = "open-torrent-from-url" then ActionDispatch.open_torrent_from_url_dialog
  else if action_name = "open-torrent" then ActionDispatch.open_torrent_dialog
  else if action_name = "show-stats" then ActionDispatch.stats_dialog
  else if action_name = "donate" then ActionDispatch.donate
  else if action_name = "pause-all-torrents" then ActionDispatch.pause_all
  else if action_name = "start-all-torrents" then ActionDispatch.start_all
  else if action_name = "copy-magnet-link-to-clipboard" then ActionDispatch.copy_magnet_link
  else if action_name = "relocate-torrent" then ActionDispatch.relocate_dialog
  else if action_name = "torrent-start" ∨ action_name = "torrent-start-now" ∨
          action_name = "torrent-stop" ∨ action_name = "torrent-reannounce" ∨
          action_name = "torrent-verify" ∨ action_name = "queue-move-top" ∨
          action_name = "queue-move-up" ∨ action_name = "queue-move-down" ∨
          action_name = "queue-move-bottom" then
    ActionDispatch.rpc_for_selected action_name
  else if action_name = "open-torrent-folder" then ActionDispatch.open_folder_for_selected
  else if action_name = "show-torrent-properties" then ActionDispatch.details_for_selected
  else if action_name = "new-torrent" then ActionDispatch.make_dialog
  else if action_name = "remove-torrent" then ActionDispatch.remove_selected false
  else if action_name = "delete-torrent" then ActionDispatch.remove_selected true
  else if action_name = "quit" then ActionDispatch.quit
  else if action_name = "select-all" then ActionDispatch.select_all
  else if action_name = "deselect-all" then ActionDispatch.deselect_all
  else if action_name = "edit-preferences" then ActionDispatch.prefs_dialog
  else if action_name = "toggle-message-log" then ActionDispatch.toggle_message_log
  else if action_name = "show-about-dialog" then ActionDispatch.about_dialog
  else if action_name = "help" then ActionDispatch.open_help
  else if action_name = "toggle-main-window" then ActionDispatch.toggle_main_window
  else if action_name = "present-main-window" then ActionDispatch.present_main_window
  else ActionDispatch.unhandled_action_error action_name

/-! ### Preference relay (`on_prefs_changed`) -/

/-- The preferences store as read through `gtr_pref_*_get`.  Doubles are
modelled as rationals; no claim performs arithmetic on them. -/
structure PrefStore where
  flags : Quark → Bool
  ints : Quark → Int
  strings : Quark → String
  doubles : Quark → Rat

/-- A concrete preferences store for instantiating theorems. -/
def pref_store0 : PrefStore :=
  { flags := fun _ => false, ints := fun _ => 0, strings := fun _ => "", doubles := fun _ => 0 }

/-- Transfer direction (`TR_UP` / `TR_DOWN`). -/
inductive TrDirection where
  | up
  | down
deriving DecidableEq

/-- Script hook (`TR_SCRIPT_ON_TORRENT_DONE*`). -/
inductive ScriptKind where
  | on_torrent_done
  | on_torrent_done_seeding
deriving DecidableEq

/-- The argument passed to an engine setter by `on_prefs_changed`. -/
inductive EngineArg where
  | int_arg (i : Int)
  | str_arg (s : String)
  | flag_arg (b : Bool)
  | real_arg (q : Rat)
  | dir_flag (d : TrDirection) (b : Bool)
  | dir_int (d : TrDirection) (i : Int)
  | script_flag (k : ScriptKind) (b : Bool)
  | script_str (k : ScriptKind) (s : String)
deriving DecidableEq

/-- A side effect of `on_prefs_changed`: an engine setter call (named by the
`libtransmission` function) or a UI action. -/
inductive PrefEffect where
  | engine (fn : String) (arg : EngineArg)
  | create_tray_icon
  | destroy_tray_icon
  | action_set_toggled (action : String) (b : Bool)
deriving DecidableEq

/-- Embeds `Application::Impl::on_prefs_changed`: the big switch forwarding
each changed preference key to the corresponding engine setter (or tray-icon
update).  Unlisted keys fall through the `default: break` and return
normally with no effect; the function never aborts, but its result is an
`Option` so that its abort behaviour can be compared with the other two
switch handlers. -/
def on_prefs_changed (p : PrefStore) (st : ImplState) (key : Quark) :
    Option (ImplState × List PrefEffect) :=
  match key with
  | Quark.encryption =>
    some (st, [PrefEffect.engine "tr_sessionSetEncryption" (EngineArg.int_arg (p.ints key))])
  | Quark.default_trackers =>
    some (st, [PrefEffect.engine "tr_sessionSetDefaultTrackers" (EngineArg.str_arg (p.strings key))])
  | Quark.download_dir =>
    some (st, [PrefEffect.engine "tr_sessionSetDownloadDir" (EngineArg.str_arg (p.strings key))])
  | Quark.message_level =>
    some (st, [PrefEffect.engine "tr_logSetLevel" (EngineArg.int_arg (p.ints key))])
  | Quark.peer_port =>
    some (st, [PrefEffect.engine "tr_sessionSetPeerPort" (EngineArg.int_arg (p.ints key))])
  | Quark.blocklist_enabled =>
    some (st, [PrefEffect.engine "tr_blocklistSetEnabled" (EngineArg.flag_arg (p.flags key))])
  | Quark.blocklist_url =>
    some (st, [PrefEffect.engine "tr_blocklistSetURL" (EngineArg.str_arg (p.strings key))])
  | Quark.show_notification_area_icon =>
    let show_icon := p.flags key
    if show_icon ∧ st.icon_present = false then
      some ({ st with icon_present := true }, [PrefEffect.create_tray_icon])
    else if show_icon = false ∧ st.icon_present then
      some ({ st with icon_present := false }, [PrefEffect.destroy_tray_icon])
    else some (st, [])
  | Quark.speed_limit_down_enabled =>
    some (st, [PrefEffect.engine "tr_sessionLimitSpeed" (EngineArg.dir_flag TrDirection.down (p.flags key))])
  | Quark.speed_limit_down =>
    some (st, [PrefEffect.engine "tr_sessionSetSpeedLimit_KBps" (EngineArg.dir_int TrDirection.down (p.ints key))])
  | Quark.speed_limit_up_enabled =>
    some (st, [PrefEffect.engine "tr_sessionLimitSpeed" (EngineArg.dir_flag TrDirection.up (p.flags key))])
  | Quark.speed_limit_up =>
    some (st, [PrefEffect.engine "tr_sessionSetSpeedLimit_KBps" (EngineArg.dir_int TrDirection.up (p.ints key))])
  | Quark.ratio_limit_enabled =>
    some (st, [PrefEffect.engine "tr_sessionSetRatioLimited" (EngineArg.flag_arg (p.flags key))])
  | Quark.ratio_limit =>
    some (st, [PrefEffect.engine "tr_sessionSetRatioLimit" (EngineArg.real_arg (p.doubles key))])
  | Quark.idle_seeding_limit =>
    some (st, [PrefEffect.engine "tr_sessionSetIdleLimit" (EngineArg.int_arg (p.ints key))])
  | Quark.idle_seeding_limit_enabled =>
    some (st, [PrefEffect.engine "tr_sessionSetIdleLimited" (EngineArg.flag_arg (p.flags key))])
  | Quark.port_forwarding_enabled =>
    some (st, [PrefEffect.engine "tr_sessionSetPortForwardingEnabled" (EngineArg.flag_arg (p.flags key))])
  | Quark.pex_enabled =>
    some (st, [PrefEffect.engine "tr_sessionSetPexEnabled" (EngineArg.flag_arg (p.flags key))])
  | Quark.rename_partial_files =>
    some (st, [PrefEffect.engine "tr_sessionSetIncompleteFileNamingEnabled" (EngineArg.flag_arg (p.flags key))])
  | Quark.download_queue_size =>
    some (st, [PrefEffect.engine "tr_sessionSetQueueSize" (EngineArg.dir_int TrDirection.down (p.ints key))])
  | Quark.queue_stalled_minutes =>
    some (st, [PrefEffect.engine "tr_sessionSetQueueStalledMinutes" (EngineArg.int_arg (p.ints key))])
  | Quark.dht_enabled =>
    some (st, [PrefEffect.engine "tr_sessionSetDHTEnabled" (EngineArg.flag_arg (p.flags key))])
  | Quark.utp_enabled =>
    some (st, [PrefEffect.engine "tr_sessionSetUTPEnabled" (EngineArg.flag_arg (p.flags key))])
  | Quark.lpd_enabled =>
    some (st, [PrefEffect.engine "tr_sessionSetLPDEnabled" (EngineArg.flag_arg (p.flags key))])
  | Quark.rpc_port =>
    some (st, [PrefEffect.engine "tr_sessionSetRPCPort" (EngineArg.int_arg (p.ints key))])
  | Quark.rpc_enabled =>
    some (st, [PrefEffect.engine "tr_sessionSetRPCEnabled" (EngineArg.flag_arg (p.flags key))])
  | Quark.rpc_whitelist =>
    some (st, [PrefEffect.engine "tr_sessionSetRPCWhitelist" (EngineArg.str_arg (p.strings key))])
  | Quark.rpc_whitelist_enabled =>
    some (st, [PrefEffect.engine "tr_sessionSetRPCWhitelistEnabled" (EngineArg.flag_arg (p.flags key))])
  | Quark.rpc_username =>
    some (st, [PrefEffect.engine "tr_sessionSetRPCUsername" (EngineArg.str_arg (p.strings key))])
  | Quark.rpc_password =>
    some (st, [PrefEffect.engine "tr_sessionSetRPCPassword" (EngineArg.str_arg (p.strings key))])
  | Quark.rpc_authentication_required =>
    some (st, [PrefEffect.engine "tr_sessionSetRPCPasswordEnabled" (EngineArg.flag_arg (p.flags key))])
  | Quark.alt_speed_up =>
    some (st, [PrefEffect.engine "tr_sessionSetAltSpeed_KBps" (EngineArg.dir_int TrDirection.up (p.ints key))])
  | Quark.alt_speed_down =>
    some (st, [PrefEffect.engine "tr_sessionSetAltSpeed_KBps" (EngineArg.dir_int TrDirection.down (p.ints key))])
  | Quark.alt_speed_enabled =>
    let b := p.flags key
    some (st, [PrefEffect.engine "tr_sessionUseAltSpeed" (EngineArg.flag_arg b),
               PrefEffect.action_set_toggled "alt-speed-enabled" b])
  | Quark.alt_speed_time_begin =>
    some (st, [PrefEffect.engine "tr_sessionSetAltSpeedBegin" (EngineArg.int_arg (p.ints key))])
  | Quark.alt_speed_time_end =>
    some (st, [PrefEffect.engine "tr_sessionSetAltSpeedEnd" (EngineArg.int_arg (p.ints key))])
  | Quark.alt_speed_time_enabled =>
    some (st, [PrefEffect.engine "tr_sessionUseAltSpeedTime" (EngineArg.flag_arg (p.flags key))])
  | Quark.alt_speed_time_day =>
    some (st, [PrefEffect.engine "tr_sessionSetAltSpeedDay" (EngineArg.int_arg (p.ints key))])
  | Quark.peer_port_random_on_start =>
    some (st, [PrefEffect.engine "tr_sessionSetPeerPortRandomOnStart" (EngineArg.flag_arg (p.flags key))])
  | Quark.incomplete_dir =>
    some (st, [PrefEffect.engine "tr_sessionSetIncompleteDir" (EngineArg.str_arg (p.strings key))])
  | Quark.incomplete_dir_enabled =>
    some (st, [PrefEffect.engine "tr_sessionSetIncompleteDirEnabled" (EngineArg.flag_arg (p.flags key))])
  | Quark.script_torrent_done_enabled =>
    some (st, [PrefEffect.engine "tr_sessionSetScriptEnabled" (EngineArg.script_flag ScriptKind.on_torrent_done (p.flags key))])
  | Quark.script_torrent_done_filename =>
    some (st, [PrefEffect.engine "tr_sessionSetScript" (EngineArg.script_str ScriptKind.on_torrent_done (p.strings key))])
  | Quark.script_torrent_done_seeding_enabled =>
    some (st, [PrefEffect.engine "tr_sessionSetScriptEnabled" (EngineArg.script_flag ScriptKind.on_torrent_done_seeding (p.flags key))])
  | Quark.script_torrent_done_seeding_filename =>
    some (st, [PrefEffect.engine "tr_sessionSetScript" (EngineArg.script_str ScriptKind.on_torrent_done_seeding (p.strings key))])
  | Quark.start_added_torrents =>
    some (st, [PrefEffect.engine "tr_sessionSetPaused" (EngineArg.flag_arg (!(p.flags key)))])
  | Quark.trash_original_torrent_files =>
    some (st, [PrefEffect.engine "tr_sessionSetDeleteSource" (EngineArg.flag_arg (p.flags key))])
  | _ => some (st, [])

/-- The preference keys carrying their own `case` label in the
`on_prefs_changed` switch; everything else falls through `default`. -/
def pref_handled (key : Quark) : Bool :=
  match key with
  | Quark.encryption | Quark.default_trackers | Quark.download_dir | Quark.message_level
  | Quark.peer_port | Quark.blocklist_enabled | Quark.blocklist_url
  | Quark.show_notification_area_icon | Quark.speed_limit_down_enabled
  | Quark.speed_limit_down | Quark.speed_limit_up_enabled | Quark.speed_limit_up
  | Quark.ratio_limit_enabled | Quark.ratio_limit | Quark.idle_seeding_limit
  | Quark.idle_seeding_limit_enabled | Quark.port_forwarding_enabled | Quark.pex_enabled
  | Quark.rename_partial_files | Quark.download_queue_size | Quark.queue_stalled_minutes
  | Quark.dht_enabled | Quark.utp_enabled | Quark.lpd_enabled | Quark.rpc_port
  | Quark.rpc_enabled | Quark.rpc_whitelist | Quark.rpc_whitelist_enabled
  | Quark.rpc_username | Quark.rpc_password | Quark.rpc_authentication_required
  | Quark.alt_speed_up | Quark.alt_speed_down | Quark.alt_speed_enabled
  | Quark.alt_speed_time_begin | Quark.alt_speed_time_end | Quark.alt_speed_time_enabled
  | Quark.alt_speed_time_day | Quark.peer_port_random_on_start | Quark.incomplete_dir
  | Quark.incomplete_dir_enabled | Quark.script_torrent_done_enabled
  | Quark.script_torrent_done_filename | Quark.script_torrent_done_seeding_enabled
  | Quark.script_torrent_done_seeding_filename | Quark.start_added_torrents
  | Quark.trash_original_torrent_files => true
  | _ => false

/-! ### Magnet handler registration -/

/-- A `Gio::Error` as caught by `register_magnet_link_handler`. -/
structure GErr where
  message : String
  code : Int
deriving DecidableEq

/-- A warning logged via `g_warning`, carrying the pieces interpolated into
the format string. -/
structure Warning where
  content_type : String
  error_message : String
  error_code : Int
deriving DecidableEq

/-- The slice of the desktop environment state that the magnet-handler
helpers observe and modify. -/
structure GioWorld where
  magnet_scheme_handler : Option String
  warnings : List Warning
deriving DecidableEq

/-- Embeds `has_magnet_link_handler`: whether
`Gio::AppInfo::get_default_for_uri_scheme("magnet")` yields a handler. -/
def has_magnet_link_handler (w : GioWorld) : Bool :=
  w.magnet_scheme_handler.isSome

/-- Embeds `register_magnet_link_handler`.  The outcome of the throwing
`Gio` calls inside the `try` block is a parameter: on success Transmission
becomes the default `x-scheme-handler/magnet` handler; on a `Gio::Error`
the error is formatted into a warning log entry and the function returns
normally with no other state change. -/
def register_magnet_link_handler (w : GioWorld) (gio_result : Except GErr Unit) : GioWorld :=
  match gio_result with
  | Except.ok _ => { w with magnet_scheme_handler := some "transmission-gtk" }
  | Except.error e =>
    { w with warnings := w.warnings ++ [⟨"x-scheme-handler/magnet", e.message, e.code⟩] }

/-- Embeds `ensure_magnet_handler_exists`: register only when no magnet
handler exists.  Also reports whether registration was attempted. -/
def ensure_magnet_handler_exists (w : GioWorld) (gio_result : Except GErr Unit) :
    GioWorld × Bool :=
  if has_magnet_link_handler w then (w, false)
  else (register_magnet_link_handler w gio_result, true)

/-! ### Drag and drop (`on_drag_data_received`, `open_files`) -/

/-- A `Gio::File` handle created from a URI. -/
structure GFile where
  uri : String
deriving DecidableEq

/-- Whitespace as stripped by `gtr_str_strip`. -/
def is_white (c : Char) : Bool :=
  c = ' ' ∨ c = '\t' ∨ c = '\n' ∨ c = '\r' ∨ c = '\x0b' ∨ c = '\x0c'

/-- Modelled from the spec: `gtr_str_strip` (defined in `Utils.cc`, which is
not part of this file set) strips surrounding whitespace from a string. -/
def gtr_str_strip (s : String) : String :=
  String.mk (((s.data.dropWhile is_white).reverse.dropWhile is_white).reverse)

/-- The torrent-adding calls a drop can trigger on the session core. -/
inductive DropEffect where
  | add_files (files : List GFile) (do_start do_prompt do_notify : Bool)
  | add_from_url (url : String)
deriving DecidableEq

/-- Embeds `Application::Impl::open_files`: add the files, starting them
when the start-added-torrents preference is set and the app was not started
paused, prompting when the show-options-window preference is set, always
notifying. -/
def open_files (p : PrefStore) (start_paused : Bool) (files : List GFile) : DropEffect :=
  DropEffect.add_files files (p.flags Quark.start_added_torrents && !start_paused)
    (p.flags Quark.show_options_window) true

/-- The payload of a drop: the URI list and the text of the selection data. -/
structure SelectionData where
  uris : List String
  text : String
deriving DecidableEq

/-- Embeds `Application::Impl::on_drag_data_received`: a nonempty URI list
is converted to file handles and opened; otherwise the text is stripped and
passed to `add_from_url` exactly when the stripped text is nonempty. -/
def on_drag_data_received (p : PrefStore) (start_paused : Bool) (sd : SelectionData) :
    List DropEffect :=
  if sd.uris ≠ [] then
    [open_files p start_paused (sd.uris.map GFile.mk)]
  else
    let text := gtr_str_strip sd.text
    if text ≠ "" then [DropEffect.add_from_url text] else []

/-! ### Concrete inputs for witness instantiations -/

/-- A concrete two-row selection: one stopped torrent, one downloading. -/
def sel0 : List Row :=
  [⟨1, Activity.stopped, false⟩, ⟨2, Activity.download, true⟩]

/-- A concrete core snapshot. -/
def core0 : CoreSnapshot := ⟨2, 1, 2⟩

/-- A concrete add-error event sequence: one corrupt add, one duplicate add. -/
def events0 : List (ErrorCode × String) :=
  [(ErrorCode.err_add_torrent_err, "/tmp/a.torrent"),
   (ErrorCode.err_add_torrent_dup, "b.torrent")]

/-- The shutdown system state after the close thread has finished and the
idle callback has run the UI teardown. -/
def close_machine_final (st : ImplState) : CloseMachine :=
  { thread_prog := [], idle_queue := 0, impl := (on_session_closed st).1,
    trace := [CloseEvent.session_close_returned, CloseEvent.ui_torn_down] }

/-! ## Theorems -/

/-! ### Helper lemmas about the selection counters -/

theorem counts_foldl (sel : List Row) : ∀ c : counts_data,
    sel.foldl count_row c =
      { total_count := c.total_count + sel.length,
        queued_count := c.queued_count + (sel.filter is_queued_row).length,
        stopped_count := c.stopped_count + (sel.filter is_stopped_row).length } := by
  induction sel with
  | nil => intro c; simp
  | cons r t ih =>
    intro c
    rw [List.foldl_cons, ih]
    cases hr : r.activity <;>
      simp [count_row, is_queued_row, is_stopped_row, hr, counts_data.mk.injEq,
        add_assoc, add_comm, add_left_comm]

theorem get_selected_torrent_counts_eq (sel : List Row) :
    get_selected_torrent_counts sel =
      { total_count := sel.length,
        queued_count := (sel.filter is_queued_row).length,
        stopped_count := (sel.filter is_stopped_row).length } := by
  rw [get_selected_torrent_counts, counts_foldl]
  simp

theorem filter_queued_stopped_le (sel : List Row) :
    (sel.filter is_queued_row).length + (sel.filter is_stopped_row).length ≤ sel.length := by
  induction sel with
  | nil => simp
  | cons r t ih =>
    cases hr : r.activity <;> simp [is_queued_row, is_stopped_row, hr] <;> omega

/-! ### C5: selected-torrent RPC requests -/

theorem ids_foldl_eq (sel : List Row) : ∀ acc : List Variant,
    sel.foldl (fun acc r => acc ++ [Variant.int (r.torrent_id : Int)]) acc =
      acc ++ sel.map (fun r => Variant.int (r.torrent_id : Int)) := by
  induction sel with
  | nil => intro acc; simp
  | cons r t ih => intro acc; rw [List.foldl_cons, ih]; simp

/-- Claim C5: `call_rpc_for_selected_torrents` builds a request whose
`method` entry is exactly the given method name and whose `arguments.ids`
entry is exactly the selected ids in selection order, executes the request
if and only if the id list is nonempty, and returns true exactly when it
executed; and `actions_handler` passes each of the nine torrent action
names itself as the RPC method name. -/
theorem c5_rpc_request_for_selected (method_name : String) (sel : List Row) :
    call_rpc_for_selected_torrents method_name sel =
      (!sel.isEmpty,
       if sel.isEmpty then []
       else [Variant.dict
         [(Quark.method, Variant.str method_name),
          (Quark.arguments, Variant.dict
            [(Quark.ids,
              Variant.list (sel.map (fun r => Variant.int (r.torrent_id : Int))))])]])
    ∧ ((call_rpc_for_selected_torrents method_name sel).1 = true ↔ sel ≠ [])
    ∧ actions_handler_dispatch "torrent-start" = ActionDispatch.rpc_for_selected "torrent-start"
    ∧ actions_handler_dispatch "torrent-start-now" = ActionDispatch.rpc_for_selected "torrent-start-now"
    ∧ actions_handler_dispatch "torrent-stop" = ActionDispatch.rpc_for_selected "torrent-stop"
    ∧ actions_handler_dispatch "torrent-reannounce" = ActionDispatch.rpc_for_selected "torrent-reannounce"
    ∧ actions_handler_dispatch "torrent-verify" = ActionDispatch.rpc_for_selected "torrent-verify"
    ∧ actions_handler_dispatch "queue-move-top" = ActionDispatch.rpc_for_selected "queue-move-top"
    ∧ actions_handler_dispatch "queue-move-up" = ActionDispatch.rpc_for_selected "queue-move-up"
    ∧ actions_handler_dispatch "queue-move-down" = ActionDispatch.rpc_for_selected "queue-move-down"
    ∧ actions_handler_dispatch "queue-move-bottom" = ActionDispatch.rpc_for_selected "queue-move-bottom" := by
  have hd : ∀ s : String,
      s = "torrent-start" ∨ s = "torrent-start-now" ∨ s = "torrent-stop" ∨
      s = "torrent-reannounce" ∨ s = "torrent-verify" ∨ s = "queue-move-top" ∨
      s = "queue-move-up" ∨ s = "queue-move-down" ∨ s = "queue-move-bottom" →
      actions_handler_dispatch s = ActionDispatch.rpc_for_selected s := by
    intro s hs
    rw [actions_handler_dispatch]
    rcases hs with h | h | h | h | h | h | h | h | h <;> subst h <;> simp
  refine ⟨?_, ?_, hd _ (by simp), hd _ (by simp), hd _ (by simp), hd _ (by simp),
    hd _ (by simp), hd _ (by simp), hd _ (by simp), hd _ (by simp), hd _ (by simp)⟩
  · rw [call_rpc_for_selected_torrents]
    rw [ids_foldl_eq]
    cases sel with
    | nil => simp
    | cons r t => simp
  · rw [call_rpc_for_selected_torrents]
    rw [ids_foldl_eq]
    cases sel with
    | nil => simp
    | cons r t => simp

/-! ### C6: unexpected enum values -/

/-- Claim C6 counterexample: the claim asserts that an unexpected preference
key makes `on_prefs_changed` abort via an assertion; in the source its
`default` case is `break`, so the handler returns normally.  At the concrete
unlisted key `Quark.other 0` the result is `some`, not the abort `none`. -/
theorem c6_counterexample_prefs_changed_returns_normally :
    on_prefs_changed pref_store0 impl0 (Quark.other 0) ≠ none ∧
    on_prefs_changed pref_store0 impl0 (Quark.other 0) = some (impl0, []) := by
  have h : on_prefs_changed pref_store0 impl0 (Quark.other 0) = some (impl0, []) := rfl
  exact ⟨by rw [h]; exact Option.some_ne_none _, h⟩

/-- Claim C6 (amended): an enum value outside the handled set aborts the
process via `g_assert_not_reached` in `on_rpc_changed_idle` and in
`on_core_error`; `on_prefs_changed`, by contrast, falls through its
`default: break` on an unexpected preference key and returns normally with
no effect. -/
theorem c6_unexpected_enum_behaviour :
    (∀ {V : Type} (toStr : V → String) (ss ov : List (Quark × V)) (found : Bool)
        (n : Nat) (tid : TorrentId),
        on_rpc_changed_idle toStr ss ov found (RpcCallbackType.other n) tid = none)
    ∧ (∀ (st : ImplState) (n : Nat) (msg : String),
        on_core_error st (ErrorCode.other n) msg = none)
    ∧ (∀ (p : PrefStore) (st : ImplState) (key : Quark),
        pref_handled key = false → on_prefs_changed p st key = some (st, [])) := by
  refine ⟨fun toStr ss ov found n tid => rfl, fun st n msg => rfl, ?_⟩
  intro p st key hk
  cases key <;> first
    | exact absurd hk (by decide)
    | rfl

/-- Witness for C6: the amended claim evaluated at the unlisted key
`Quark.other 7`. -/
theorem c6_witness :
    pref_handled (Quark.other 7) = false ∧
    on_prefs_changed pref_store0 impl0 (Quark.other 7) = some (impl0, []) :=
  ⟨rfl, c6_unexpected_enum_behaviour.2.2 pref_store0 impl0 (Quark.other 7) rfl⟩

/-! ### C7: best-effort magnet handler registration -/

/-- Claim C7: registration of Transmission as the magnet handler is
attempted exactly when no magnet handler exists, and a `Gio::Error` raised
during registration is caught, formatted into a warning log entry, and the
function returns normally without changing any other state. -/
theorem c7_magnet_handler_best_effort (w : GioWorld) (r : Except GErr Unit) (e : GErr) :
    ((ensure_magnet_handler_exists w r).2 = !has_magnet_link_handler w)
    ∧ (has_magnet_link_handler w = true → ensure_magnet_handler_exists w r = (w, false))
    ∧ (has_magnet_link_handler w = false →
        ensure_magnet_handler_exists w r = (register_magnet_link_handler w r, true))
    ∧ (register_magnet_link_handler w (Except.error e)).magnet_scheme_handler
        = w.magnet_scheme_handler
    ∧ (register_magnet_link_handler w (Except.error e)).warnings
        = w.warnings ++ [⟨"x-scheme-handler/magnet", e.message, e.code⟩] := by
  refine ⟨?_, ?_, ?_, rfl, rfl⟩
  · by_cases h : has_magnet_link_handler w <;> simp [ensure_magnet_handler_exists, h]
  · intro h; simp [ensure_magnet_handler_exists, h]
  · intro h; simp [ensure_magnet_handler_exists, h]

/-- Witness for C7: a desktop with an existing magnet handler skips
registration even when the `Gio` call would fail, and a failing
registration on a handlerless desktop logs exactly one warning. -/
theorem c7_witness :
    ensure_magnet_handler_exists ⟨some "firefox", []⟩ (Except.error ⟨"boom", 3⟩)
      = (⟨some "firefox", []⟩, false)
    ∧ (register_magnet_link_handler ⟨none, []⟩ (Except.error ⟨"boom", 3⟩)).warnings
      = [⟨"x-scheme-handler/magnet", "boom", 3⟩] :=
  ⟨(c7_magnet_handler_best_effort ⟨some "firefox", []⟩ (Except.error ⟨"boom", 3⟩)
      ⟨"boom", 3⟩).2.1 rfl,
   (c7_magnet_handler_best_effort ⟨none, []⟩ (Except.error ⟨"boom", 3⟩) ⟨"boom", 3⟩).2.2.2.2⟩

/-! ### C10: selection counters and action sensitivities -/

theorem filter_length_pos_iff {p : Row → Bool} (l : List Row) :
    0 < (l.filter p).length ↔ ∃ r ∈ l, p r = true := by
  induction l with
  | nil => simp
  | cons a t ih => by_cases hp : p a <;> simp [List.filter_cons, hp, ih]

theorem filter_length_lt_iff {p : Row → Bool} (l : List Row) :
    (l.filter p).length < l.length ↔ ∃ r ∈ l, p r = false := by
  induction l with
  | nil => simp
  | cons a t ih =>
    by_cases hp : p a
    · simp [List.filter_cons, hp, Nat.succ_lt_succ_iff, ih]
    · simp only [List.filter_cons, hp, Bool.false_eq_true, if_false, List.length_cons]
      constructor
      · intro _; exact ⟨a, List.mem_cons_self a t, by simp [hp]⟩
      · intro _; exact Nat.lt_succ_of_le (List.length_filter_le _ _)

theorem is_queued_row_iff (r : Row) :
    is_queued_row r = true ↔
      (r.activity = Activity.download_wait ∨ r.activity = Activity.seed_wait) := by
  simp [is_queued_row]

theorem is_stopped_row_iff (r : Row) :
    is_stopped_row r = true ↔ r.activity = Activity.stopped := by
  simp [is_stopped_row]

theorem is_stopped_row_false_iff (r : Row) :
    is_stopped_row r = false ↔ r.activity ≠ Activity.stopped := by
  simp [is_stopped_row]

theorem stopped_lt_total_iff (sel : List Row) :
    (get_selected_torrent_counts sel).stopped_count
      < (get_selected_torrent_counts sel).total_count ↔
    ∃ r ∈ sel, r.activity ≠ Activity.stopped := by
  rw [get_selected_torrent_counts_eq]
  dsimp only
  rw [Nat.cast_lt]
  rw [filter_length_lt_iff]
  exact exists_congr fun r => and_congr_right fun _ => is_stopped_row_false_iff r

theorem stopped_pos_iff (sel : List Row) :
    0 < (get_selected_torrent_counts sel).stopped_count ↔
    ∃ r ∈ sel, r.activity = Activity.stopped := by
  rw [get_selected_torrent_counts_eq]
  dsimp only
  rw [show ((0 : Int) < ((sel.filter is_stopped_row).length : Int)) ↔
        0 < (sel.filter is_stopped_row).length by exact_mod_cast Iff.rfl]
  rw [filter_length_pos_iff]
  exact exists_congr fun r => and_congr_right fun _ => is_stopped_row_iff r

theorem stopped_or_queued_pos_iff (sel : List Row) :
    0 < (get_selected_torrent_counts sel).stopped_count
        + (get_selected_torrent_counts sel).queued_count ↔
    ∃ r ∈ sel, r.activity = Activity.stopped ∨ r.activity = Activity.download_wait
      ∨ r.activity = Activity.seed_wait := by
  rw [get_selected_torrent_counts_eq]
  dsimp only
  rw [show ((0 : Int) < ((sel.filter is_stopped_row).length : Int)
          + ((sel.filter is_queued_row).length : Int)) ↔
        0 < (sel.filter is_stopped_row).length + (sel.filter is_queued_row).length by
      exact_mod_cast Iff.rfl]
  constructor
  · intro h2
    rcases Nat.lt_or_ge 0 (sel.filter is_stopped_row).length with h3 | h3
    · obtain ⟨r, hr, hpr⟩ := (filter_length_pos_iff sel).mp h3
      exact ⟨r, hr, Or.inl ((is_stopped_row_iff r).mp hpr)⟩
    · have h4 : 0 < (sel.filter is_queued_row).length := by omega
      obtain ⟨r, hr, hpr⟩ := (filter_length_pos_iff sel).mp h4
      exact ⟨r, hr, Or.inr ((is_queued_row_iff r).mp hpr)⟩
  · rintro ⟨r, hr, h5 | h5⟩
    · have := (filter_length_pos_iff sel).mpr ⟨r, hr, (is_stopped_row_iff r).mpr h5⟩
      omega
    · have := (filter_length_pos_iff sel).mpr ⟨r, hr, (is_queued_row_iff r).mpr h5⟩
      omega

/-- Claim C10: the selection counters are non-negative and satisfy
queued + stopped ≤ total, and `refresh_actions` makes torrent-stop sensitive
exactly when some selected torrent is not stopped, torrent-start exactly
when some selected torrent is stopped, and torrent-start-now exactly when
some selected torrent is stopped or queued. -/
theorem c10_counts_invariant_and_sensitivities (sel : List Row) (st : ImplState)
    (core : CoreSnapshot) (h : st.is_closing = false) :
    0 ≤ (get_selected_torrent_counts sel).total_count
    ∧ 0 ≤ (get_selected_torrent_counts sel).queued_count
    ∧ 0 ≤ (get_selected_torrent_counts sel).stopped_count
    ∧ (get_selected_torrent_counts sel).queued_count
        + (get_selected_torrent_counts sel).stopped_count
        ≤ (get_selected_torrent_counts sel).total_count
    ∧ sens_lookup (refresh_actions st core sel).2.1 "torrent-stop"
        = some (decide (∃ r ∈ sel, r.activity ≠ Activity.stopped))
    ∧ sens_lookup (refresh_actions st core sel).2.1 "torrent-start"
        = some (decide (∃ r ∈ sel, r.activity = Activity.stopped))
    ∧ sens_lookup (refresh_actions st core sel).2.1 "torrent-start-now"
        = some (decide (∃ r ∈ sel, r.activity = Activity.stopped
            ∨ r.activity = Activity.download_wait ∨ r.activity = Activity.seed_wait)) := by
  have hcounts := get_selected_torrent_counts_eq sel
  refine ⟨?_, ?_, ?_, ?_, ?_, ?_, ?_⟩
  · rw [hcounts]; exact Int.natCast_nonneg _
  · rw [hcounts]; exact Int.natCast_nonneg _
  · rw [hcounts]; exact Int.natCast_nonneg _
  · rw [hcounts]
    dsimp only
    have := filter_queued_stopped_le sel
    exact_mod_cast this
  · rw [refresh_actions]
    simp [h, sens_lookup, List.find?]
    exact stopped_lt_total_iff sel
  · rw [refresh_actions]
    simp [h, sens_lookup, List.find?]
    exact stopped_pos_iff sel
  · rw [refresh_actions]
    simp [h, sens_lookup, List.find?]
    exact stopped_or_queued_pos_iff sel

/-- Witness for C10: the invariants and sensitivities at the concrete
two-row selection `sel0`. -/
theorem c10_witness :
    0 ≤ (get_selected_torrent_counts sel0).total_count
    ∧ 0 ≤ (get_selected_torrent_counts sel0).queued_count
    ∧ 0 ≤ (get_selected_torrent_counts sel0).stopped_count
    ∧ (get_selected_torrent_counts sel0).queued_count
        + (get_selected_torrent_counts sel0).stopped_count
        ≤ (get_selected_torrent_counts sel0).total_count
    ∧ sens_lookup (refresh_actions impl0 core0 sel0).2.1 "torrent-stop"
        = some (decide (∃ r ∈ sel0, r.activity ≠ Activity.stopped))
    ∧ sens_lookup (refresh_actions impl0 core0 sel0).2.1 "torrent-start"
        = some (decide (∃ r ∈ sel0, r.activity = Activity.stopped))
    ∧ sens_lookup (refresh_actions impl0 core0 sel0).2.1 "torrent-start-now"
        = some (decide (∃ r ∈ sel0, r.activity = Activity.stopped
            ∨ r.activity = Activity.download_wait ∨ r.activity = Activity.seed_wait)) :=
  c10_counts_invariant_and_sensitivities sel0 impl0 core0 rfl

/-! ### C9: idempotent exit -/

theorem flush_torrent_errors_is_closing (st : ImplState) :
    (flush_torrent_errors st).1.is_closing = st.is_closing := by
  rw [flush_torrent_errors]
  by_cases h1 : st.error_list.isEmpty <;> by_cases h2 : st.duplicates_list.isEmpty <;>
    simp [h1, h2]

/-- Claim C9: `on_app_exit` is idempotent: it sets the closing flag, a call
in the closing state returns immediately with no effect, no modelled
operation ever clears the flag, and once closing neither `refresh_actions`
nor `refresh_actions_soon` touches action sensitivities or schedules a
refresh. -/
theorem c9_on_app_exit_idempotent :
    (∀ st : ImplState, ((on_app_exit st).1).is_closing = true)
    ∧ (∀ st : ImplState, st.is_closing = true → on_app_exit st = (st, []))
    ∧ (∀ st : ImplState, on_app_exit ((on_app_exit st).1) = (((on_app_exit st).1), []))
    ∧ (∀ (st : ImplState) (core : CoreSnapshot) (sel : List Row),
        st.is_closing = true → (refresh_actions st core sel).2.1 = [])
    ∧ (∀ st : ImplState, st.is_closing = true → refresh_actions_soon st = st)
    ∧ (∀ (st : ImplState) (core : CoreSnapshot) (sel : List Row),
        ((refresh_actions st core sel).1).is_closing = st.is_closing)
    ∧ (∀ st : ImplState, ((refresh_actions_soon st)).is_closing = st.is_closing)
    ∧ (∀ (st : ImplState) (code : ErrorCode) (msg : String) (st2 : ImplState)
        (ds : List ErrorsDialog),
        on_core_error st code msg = some (st2, ds) → st2.is_closing = st.is_closing)
    ∧ (∀ (st : ImplState) (sel_ids : List Nat),
        ((show_details_dialog_for_selected_torrents st sel_ids).1).is_closing
          = st.is_closing) := by
  refine ⟨?_, ?_, ?_, ?_, ?_, ?_, ?_, ?_, ?_⟩
  · intro st; by_cases h : st.is_closing <;> simp [on_app_exit, h]
  · intro st h; simp [on_app_exit, h]
  · intro st
    by_cases h : st.is_closing <;> simp [on_app_exit, h]
  · intro st core sel h; simp [refresh_actions, h]
  · intro st h; simp [refresh_actions_soon, h]
  · intro st core sel; rfl
  · intro st
    by_cases h1 : st.is_closing = false ∧ st.refresh_tag_connected = false <;>
      simp [refresh_actions_soon, h1]
  · intro st code msg st2 ds h
    cases code with
    | err_add_torrent_err =>
      rw [on_core_error] at h
      cases h; rfl
    | err_add_torrent_dup =>
      rw [on_core_error] at h
      cases h; rfl
    | err_no_more_torrents =>
      rw [on_core_error] at h
      have h2 : st2 = (flush_torrent_errors st).1 := by
        cases hefl : flush_torrent_errors st
        rw [hefl] at h
        cases h
        rfl
      rw [h2, flush_torrent_errors_is_closing]
    | other n => exact absurd h (by simp [on_core_error])
  · intro st sel_ids
    rw [show_details_dialog_for_selected_torrents]
    cases st.details.lookup (get_details_dialog_key sel_ids) <;> rfl

/-- Witness for C9: the second exit call in the already-closing state
`(on_app_exit impl0).1` is a no-op, and a closing-state refresh produces no
sensitivity effects. -/
theorem c9_witness :
    on_app_exit ((on_app_exit impl0).1) = (((on_app_exit impl0).1), [])
    ∧ (refresh_actions { impl0 with is_closing := true } core0 sel0).2.1 = [] :=
  ⟨c9_on_app_exit_idempotent.2.2.1 impl0,
   c9_on_app_exit_idempotent.2.2.2.1 { impl0 with is_closing := true } core0 sel0 rfl⟩

/-! ### C8: drag-and-drop payloads -/

theorem dropWhile_all_white (l : List Char) (h : ∀ c ∈ l, is_white c = true) :
    l.dropWhile is_white = [] :=
  List.dropWhile_eq_nil_iff.mpr h

theorem gtr_str_strip_all_white (s : String) (h : ∀ c ∈ s.data, is_white c = true) :
    gtr_str_strip s = "" := by
  rw [gtr_str_strip, dropWhile_all_white s.data h]
  rfl

/-- Claim C8: a drop carrying file URIs opens them via the add-files path
with start and prompt flags read from the preferences; a text drop is
stripped of surrounding whitespace and passed to `add_from_url` exactly when
the stripped text is nonempty; a whitespace-only text drop adds nothing. -/
theorem c8_drag_and_drop (p : PrefStore) (start_paused : Bool) (sd : SelectionData) :
    (sd.uris ≠ [] → on_drag_data_received p start_paused sd =
        [DropEffect.add_files (sd.uris.map GFile.mk)
           (p.flags Quark.start_added_torrents && !start_paused)
           (p.flags Quark.show_options_window) true])
    ∧ (sd.uris = [] → gtr_str_strip sd.text ≠ "" →
        on_drag_data_received p start_paused sd =
          [DropEffect.add_from_url (gtr_str_strip sd.text)])
    ∧ (sd.uris = [] → gtr_str_strip sd.text = "" →
        on_drag_data_received p start_paused sd = [])
    ∧ (sd.uris = [] → (∀ c ∈ sd.text.data, is_white c = true) →
        on_drag_data_received p start_paused sd = []) := by
  refine ⟨?_, ?_, ?_, ?_⟩
  · intro h; simp [on_drag_data_received, open_files, h]
  · intro h1 h2; simp [on_drag_data_received, h1, h2]
  · intro h1 h2; simp [on_drag_data_received, h1, h2]
  · intro h1 h2
    simp [on_drag_data_received, h1, gtr_str_strip_all_white sd.text h2]

/-- Witness for C8: a concrete file-URI drop and a concrete
whitespace-only text drop. -/
theorem c8_witness :
    on_drag_data_received pref_store0 false ⟨["file:///a.torrent"], ""⟩ =
      [DropEffect.add_files [⟨"file:///a.torrent"⟩]
        (pref_store0.flags Quark.start_added_torrents && !false)
        (pref_store0.flags Quark.show_options_window) true]
    ∧ on_drag_data_received pref_store0 false ⟨[], " \t\n"⟩ = [] :=
  ⟨(c8_drag_and_drop pref_store0 false ⟨["file:///a.torrent"], ""⟩).1 (by simp),
   (c8_drag_and_drop pref_store0 false ⟨[], " \t\n"⟩).2.2.2 rfl (by decide)⟩

/-! ### C1: batching of add errors -/

theorem run_core_errors_adds (events : List (ErrorCode × String)) :
    ∀ st : ImplState, (∀ e ∈ events, is_add_error e.1 = true) →
      run_core_errors st events =
        some ({ st with error_list := st.error_list ++ corrupt_basenames events,
                        duplicates_list := st.duplicates_list ++ duplicate_messages events },
              []) := by
  induction events with
  | nil =>
    intro st h
    simp [run_core_errors, corrupt_basenames, duplicate_messages]
  | cons e rest ih =>
    intro st h
    obtain ⟨code, msg⟩ := e
    have hc : is_add_error code = true := h (code, msg) (List.mem_cons_self _ _)
    have hrest := fun st2 => ih st2 (fun e2 he2 => h e2 (List.mem_cons_of_mem _ he2))
    cases code with
    | err_add_torrent_err =>
      rw [run_core_errors, on_core_error]
      dsimp only
      rw [hrest]
      simp [corrupt_basenames, duplicate_messages]
    | err_add_torrent_dup =>
      rw [run_core_errors, on_core_error]
      dsimp only
      rw [hrest]
      simp [corrupt_basenames, duplicate_messages]
    | err_no_more_torrents => exact absurd hc (by simp [is_add_error])
    | other n => exact absurd hc (by simp [is_add_error])

theorem flush_torrent_errors_spec (st : ImplState) :
    (flush_torrent_errors st).1.error_list = [] ∧
    (flush_torrent_errors st).1.duplicates_list = [] ∧
    (flush_torrent_errors st).2 =
      (if st.error_list.isEmpty then []
       else [ErrorsDialog.corrupt_torrents st.error_list.length st.error_list]) ++
      (if st.duplicates_list.isEmpty then []
       else [ErrorsDialog.duplicate_torrents st.duplicates_list.length st.duplicates_list]) := by
  rw [flush_torrent_errors]
  by_cases h1 : st.error_list.isEmpty <;> by_cases h2 : st.duplicates_list.isEmpty <;>
    simp_all [List.isEmpty_iff]

/-- Claim C1: over any sequence of add-error events, a corrupt-add error
appends the basename of its message to the error list and a duplicate-add
error appends its message to the duplicates list, no dialog is shown while
adds are pending, and the no-more-torrents event shows the batched dialogs
listing the accumulated filenames per category, after which both lists are
empty. -/
theorem c1_add_error_batching (events : List (ErrorCode × String)) (st : ImplState)
    (msg : String)
    (hadd : ∀ e ∈ events, is_add_error e.1 = true)
    (he : st.error_list = []) (hd : st.duplicates_list = []) :
    run_core_errors st events =
      some ({ st with error_list := corrupt_basenames events,
                      duplicates_list := duplicate_messages events }, [])
    ∧ on_core_error { st with error_list := corrupt_basenames events,
                              duplicates_list := duplicate_messages events }
        ErrorCode.err_no_more_torrents msg
        = some (flush_torrent_errors
            { st with error_list := corrupt_basenames events,
                      duplicates_list := duplicate_messages events })
    ∧ (flush_torrent_errors
        { st with error_list := corrupt_basenames events,
                  duplicates_list := duplicate_messages events }).1.error_list = []
    ∧ (flush_torrent_errors
        { st with error_list := corrupt_basenames events,
                  duplicates_list := duplicate_messages events }).1.duplicates_list = []
    ∧ (flush_torrent_errors
        { st with error_list := corrupt_basenames events,
                  duplicates_list := duplicate_messages events }).2 =
        (if (corrupt_basenames events).isEmpty then []
         else [ErrorsDialog.corrupt_torrents (corrupt_basenames events).length
                 (corrupt_basenames events)]) ++
        (if (duplicate_messages events).isEmpty then []
         else [ErrorsDialog.duplicate_torrents (duplicate_messages events).length
                 (duplicate_messages events)]) := by
  refine ⟨?_, rfl, (flush_torrent_errors_spec _).1, (flush_torrent_errors_spec _).2.1,
    (flush_torrent_errors_spec _).2.2⟩
  rw [run_core_errors_adds events st hadd, he, hd]
  simp

/-- Witness for C1: the batching behaviour at the concrete event sequence
`events0` (one corrupt add, one duplicate add) from the concrete state
`impl0`. -/
theorem c1_witness :
    run_core_errors impl0 events0 =
      some ({ impl0 with error_list := corrupt_basenames events0,
                         duplicates_list := duplicate_messages events0 }, [])
    ∧ on_core_error { impl0 with error_list := corrupt_basenames events0,
                                 duplicates_list := duplicate_messages events0 }
        ErrorCode.err_no_more_torrents "done"
        = some (flush_torrent_errors
            { impl0 with error_list := corrupt_basenames events0,
                         duplicates_list := duplicate_messages events0 })
    ∧ (flush_torrent_errors
        { impl0 with error_list := corrupt_basenames events0,
                     duplicates_list := duplicate_messages events0 }).1.error_list = []
    ∧ (flush_torrent_errors
        { impl0 with error_list := corrupt_basenames events0,
                     duplicates_list := duplicate_messages events0 }).1.duplicates_list = []
    ∧ (flush_torrent_errors
        { impl0 with error_list := corrupt_basenames events0,
                     duplicates_list := duplicate_messages events0 }).2 =
        (if (corrupt_basenames events0).isEmpty then []
         else [ErrorsDialog.corrupt_torrents (corrupt_basenames events0).length
                 (corrupt_basenames events0)]) ++
        (if (duplicate_messages events0).isEmpty then []
         else [ErrorsDialog.duplicate_torrents (duplicate_messages events0).length
                 (duplicate_messages events0)]) :=
  c1_add_error_batching events0 impl0 "done" (by decide) rfl rfl

/-! ### C3: session-changed preference diffing -/

/-- Claim C3: on a session-settings-changed RPC event the handler walks the
fresh session-settings dictionary and emits a prefs-changed signal for a key
if and only if the key is absent from the old preferences dictionary or the
serializations of the old and new values differ, with emissions following
the new dictionary's iteration order (the emitted keys form a sublist of
the new dictionary's keys). -/
theorem c3_session_changed_key_diff {V : Type} (toStr : V → String)
    (new_dict old_vals : List (Quark × V)) (found : Bool) (tid : TorrentId) (q : Quark) :
    on_rpc_changed_idle toStr new_dict old_vals found RpcCallbackType.session_changed tid
      = some (RpcIdleEffect.refresh_prefs_from_session ::
          (session_changed_keys toStr new_dict old_vals).map RpcIdleEffect.emit_prefs_changed,
        false)
    ∧ (q ∈ session_changed_keys toStr new_dict old_vals ↔
        ∃ v, (q, v) ∈ new_dict ∧
          (old_vals.lookup q = none ∨
           ∃ w, old_vals.lookup q = some w ∧ toStr w ≠ toStr v))
    ∧ List.Sublist (session_changed_keys toStr new_dict old_vals) (new_dict.map Prod.fst) := by
  refine ⟨rfl, ?_, List.Sublist.map _ (List.filter_sublist _)⟩
  rw [session_changed_keys]
  constructor
  · intro hq
    obtain ⟨kv, hkv, hfst⟩ := List.mem_map.mp hq
    obtain ⟨hmem, hp⟩ := List.mem_filter.mp hkv
    obtain ⟨k, v⟩ := kv
    cases hfst
    refine ⟨v, hmem, ?_⟩
    cases hl : old_vals.lookup k with
    | none => exact Or.inl rfl
    | some w =>
      rw [hl] at hp
      exact Or.inr ⟨w, rfl, by simpa using hp⟩
  · rintro ⟨v, hmem, hcond⟩
    refine List.mem_map.mpr ⟨(q, v), List.mem_filter.mpr ⟨hmem, ?_⟩, rfl⟩
    rcases hcond with hl | ⟨w, hl, hneq⟩
    · simp only [hl]
    · simp only [hl]
      simpa using hneq

/-! ### C2: teardown only after the blocking close returns -/

theorem close_inv_step {st0 : ImplState} {m m2 : CloseMachine}
    (hinv : close_inv st0 m) (hstep : CloseStep m m2) : close_inv st0 m2 := by
  cases hstep with
  | run_close rest h =>
    rcases hinv with ⟨h1, h2, h3, h4⟩ | ⟨h1, h2, h3, h4⟩ | ⟨h1, h2, h3, h4⟩ | ⟨h1, h2, h3, h4⟩
    · rw [h1, exit_thread_body] at h
      obtain ⟨-, hrest⟩ := List.cons_eq_cons.mp h
      refine Or.inr (Or.inl ⟨?_, ?_, ?_, ?_⟩) <;> simp [← hrest, h2, h3, h4]
    · rw [h1] at h
      exact absurd (List.cons_eq_cons.mp h).1 (by simp)
    · rw [h1] at h
      exact absurd h (by simp)
    · rw [h1] at h
      exact absurd h (by simp)
  | run_connect rest h =>
    rcases hinv with ⟨h1, h2, h3, h4⟩ | ⟨h1, h2, h3, h4⟩ | ⟨h1, h2, h3, h4⟩ | ⟨h1, h2, h3, h4⟩
    · rw [h1, exit_thread_body] at h
      exact absurd (List.cons_eq_cons.mp h).1 (by simp)
    · rw [h1] at h
      obtain ⟨-, hrest⟩ := List.cons_eq_cons.mp h
      refine Or.inr (Or.inr (Or.inl ⟨?_, ?_, ?_, ?_⟩)) <;> simp [← hrest, h2, h3, h4]
    · rw [h1] at h
      exact absurd h (by simp)
    · rw [h1] at h
      exact absurd h (by simp)
  | run_idle h =>
    rcases hinv with ⟨h1, h2, h3, h4⟩ | ⟨h1, h2, h3, h4⟩ | ⟨h1, h2, h3, h4⟩ | ⟨h1, h2, h3, h4⟩
    · rw [h2] at h
      exact absurd h (by simp)
    · rw [h2] at h
      exact absurd h (by simp)
    · refine Or.inr (Or.inr (Or.inr ⟨?_, ?_, ?_, ?_⟩)) <;> simp [h1, h2, h3, h4]
    · rw [h2] at h
      exact absurd h (by simp)

theorem close_inv_reach {st0 : ImplState} {m : CloseMachine}
    (h : CloseReach (close_machine_init st0) m) : close_inv st0 m := by
  induction h with
  | refl => exact Or.inl ⟨rfl, rfl, rfl, rfl⟩
  | tail hsteps hstep ih => exact close_inv_step ih hstep

/-- Claim C2: in every interleaving of the shutdown system spawned by
`on_app_exit`, the UI teardown (which clears the details dialogs, prefs
dialog, main window, session core, tray icon and error lists and releases
the application hold) never happens before the blocking `tr_sessionClose`
call returns: a teardown event in the trace forces the close-returned event
to precede it, the teardown runs via the idle callback the close thread
connects after the close returns, and the thread spawn is the final effect
of `on_app_exit`. -/
theorem c2_teardown_after_close (st0 : ImplState) (m : CloseMachine)
    (h : CloseReach (close_machine_init st0) m) :
    (CloseEvent.ui_torn_down ∈ m.trace →
       m.trace = [CloseEvent.session_close_returned, CloseEvent.ui_torn_down]
       ∧ m.impl = (on_session_closed st0).1)
    ∧ (CloseEvent.session_close_returned ∉ m.trace → m.impl = st0 ∧ m.trace = [])
    ∧ (∀ st : ImplState, st.is_closing = false →
        (on_app_exit st).2.getLast? = some ExitEffect.spawn_close_thread)
    ∧ (on_session_closed st0).1.details = []
    ∧ (on_session_closed st0).1.prefs_open = false
    ∧ (on_session_closed st0).1.window_open = false
    ∧ (on_session_closed st0).1.core_alive = false
    ∧ (on_session_closed st0).1.icon_present = false
    ∧ (on_session_closed st0).1.error_list = []
    ∧ (on_session_closed st0).1.duplicates_list = []
    ∧ (on_session_closed st0).1.app_held = false := by
  have hinv := close_inv_reach h
  refine ⟨?_, ?_, ?_, rfl, rfl, rfl, rfl, rfl, rfl, rfl, rfl⟩
  · intro hmem
    rcases hinv with ⟨h1, h2, h3, h4⟩ | ⟨h1, h2, h3, h4⟩ | ⟨h1, h2, h3, h4⟩ | ⟨h1, h2, h3, h4⟩ <;>
      (rw [h4] at hmem; simp at hmem)
    exact ⟨h4, h3⟩
  · intro hmem
    rcases hinv with ⟨h1, h2, h3, h4⟩ | ⟨h1, h2, h3, h4⟩ | ⟨h1, h2, h3, h4⟩ | ⟨h1, h2, h3, h4⟩ <;>
      (rw [h4] at hmem; simp at hmem)
    exact ⟨h3, h4⟩
  · intro st hst
    simp [on_app_exit, hst]

/-- Witness for C2: the full three-step interleaving from `impl0`, ending
in the torn-down configuration. -/
theorem c2_witness :
    (close_machine_final impl0).trace
      = [CloseEvent.session_close_returned, CloseEvent.ui_torn_down]
    ∧ (close_machine_final impl0).impl = (on_session_closed impl0).1 := by
  have hreach : CloseReach (close_machine_init impl0) (close_machine_final impl0) := by
    refine Relation.ReflTransGen.head
      (CloseStep.run_close (close_machine_init impl0)
        [CloseInstr.connect_idle_session_closed] rfl) ?_
    refine Relation.ReflTransGen.head
      (CloseStep.run_connect _ [] rfl) ?_
    refine Relation.ReflTransGen.head
      (CloseStep.run_idle _ (by decide)) ?_
    exact Relation.ReflTransGen.refl
  exact (c2_teardown_after_close impl0 (close_machine_final impl0) hreach).1 (by decide)

/-! ### C4: details dialogs keyed by the sorted id list -/

theorem digit_char_toNat : ∀ d, d < 10 → (digit_char d).toNat = 48 + d := by decide

theorem digit_char_bounds : ∀ d, d < 10 →
    48 ≤ (digit_char d).toNat ∧ (digit_char d).toNat ≤ 57 := by decide

theorem nat_chars_aux_digits :
    ∀ fuel n, n ≤ fuel → ∀ c ∈ nat_chars_aux fuel n, 48 ≤ c.toNat ∧ c.toNat ≤ 57 := by
  intro fuel
  induction fuel with
  | zero =>
    intro n hn c hc
    obtain rfl := Nat.le_zero.mp hn
    rw [nat_chars_aux] at hc
    simp at hc
    subst hc
    exact digit_char_bounds 0 (by omega)
  | succ f ih =>
    intro n hn c hc
    rw [nat_chars_aux] at hc
    by_cases h10 : n < 10
    · rw [if_pos h10] at hc
      simp at hc
      subst hc
      exact digit_char_bounds n h10
    · rw [if_neg h10] at hc
      rcases List.mem_append.mp hc with hm | hm
      · exact ih (n / 10) (by omega) c hm
      · simp at hm
        subst hm
        exact digit_char_bounds (n % 10) (by omega)

theorem nat_chars_no_space (n : Nat) : ' ' ∉ nat_chars n := by
  intro hmem
  have := (nat_chars_aux_digits n n le_rfl ' ' hmem).1
  simp at this

theorem chars_val_aux :
    ∀ fuel n acc, n ≤ fuel →
      List.foldl (fun acc c => 10 * acc + (c.toNat - 48)) acc (nat_chars_aux fuel n)
        = acc * 10 ^ (nat_chars_aux fuel n).length + n := by
  intro fuel
  induction fuel with
  | zero =>
    intro n acc hn
    obtain rfl := Nat.le_zero.mp hn
    rw [nat_chars_aux]
    simp [digit_char_toNat 0 (by omega)]
    omega
  | succ f ih =>
    intro n acc hn
    rw [nat_chars_aux]
    by_cases h10 : n < 10
    · rw [if_pos h10]
      simp [digit_char_toNat n h10]
      omega
    · rw [if_neg h10]
      rw [List.foldl_append, ih (n / 10) acc (by omega)]
      simp only [List.foldl_cons, List.foldl_nil, List.length_append, List.length_cons,
        List.length_nil]
      rw [digit_char_toNat (n % 10) (by omega)]
      rw [pow_succ, ← mul_assoc]
      have hdm : 10 * (n / 10) + n % 10 = n := Nat.div_add_mod n 10
      generalize acc * 10 ^ (nat_chars_aux f (n / 10)).length = X
      omega

theorem chars_val_nat_chars (n : Nat) : chars_val (nat_chars n) = n := by
  rw [chars_val, nat_chars, chars_val_aux n n 0 le_rfl]
  simp

theorem nat_chars_inj {a b : Nat} (h : nat_chars a = nat_chars b) : a = b := by
  have ha := chars_val_nat_chars a
  rw [h, chars_val_nat_chars b] at ha
  exact ha.symm

theorem sep_cons_inj :
    ∀ u v t1 t2 : List Char, ' ' ∉ u → ' ' ∉ v →
      u ++ ' ' :: t1 = v ++ ' ' :: t2 → u = v ∧ t1 = t2 := by
  intro u
  induction u with
  | nil =>
    intro v t1 t2 hu hv h
    cases v with
    | nil => simpa using h
    | cons d v2 =>
      exfalso
      simp at h
      exact hv (List.mem_cons.mpr (Or.inl h.1))
  | cons c u2 ih =>
    intro v t1 t2 hu hv h
    cases v with
    | nil =>
      exfalso
      simp at h
      exact hu (List.mem_cons.mpr (Or.inl h.1.symm))
    | cons d v2 =>
      simp only [List.cons_append, List.cons_eq_cons] at h
      obtain ⟨hcd, hrest⟩ := h
      have hih := ih v2 t1 t2 (fun hm => hu (List.mem_cons_of_mem _ hm))
        (fun hm => hv (List.mem_cons_of_mem _ hm)) hrest
      exact ⟨by rw [hcd, hih.1], hih.2⟩

theorem id_tokens_inj : ∀ l1 l2 : List Nat, id_tokens l1 = id_tokens l2 → l1 = l2 := by
  intro l1
  induction l1 with
  | nil =>
    intro l2 h
    cases l2 with
    | nil => rfl
    | cons b t2 =>
      exfalso
      rw [id_tokens, id_tokens] at h
      have := congrArg List.length h
      simp at this
      omega
  | cons a t1 ih =>
    intro l2 h
    cases l2 with
    | nil =>
      exfalso
      rw [id_tokens, id_tokens] at h
      have := congrArg List.length h
      simp at this
    | cons b t2 =>
      rw [id_tokens, id_tokens] at h
      obtain ⟨h1, h2⟩ :=
        sep_cons_inj _ _ _ _ (nat_chars_no_space a) (nat_chars_no_space b) h
      rw [nat_chars_inj h1, ih t2 h2]

theorem get_details_dialog_key_eq_iff (l1 l2 : List Nat) :
    get_details_dialog_key l1 = get_details_dialog_key l2 ↔
      l1.insertionSort (· ≤ ·) = l2.insertionSort (· ≤ ·) := by
  rw [get_details_dialog_key, get_details_dialog_key]
  constructor
  · intro h
    have hdata : id_tokens (l1.insertionSort (· ≤ ·))
        = id_tokens (l2.insertionSort (· ≤ ·)) := by
      have := congrArg String.data h
      simpa using this
    exact id_tokens_inj _ _ hdata
  · intro h
    rw [h]

theorem key_eq_of_perm {l1 l2 : List Nat} (h : l1.Perm l2) :
    get_details_dialog_key l1 = get_details_dialog_key l2 := by
  rw [get_details_dialog_key_eq_iff]
  exact @List.eq_of_perm_of_sorted Nat (· ≤ ·) inferInstance _ _
    ((List.perm_insertionSort _ l1).trans (h.trans (List.perm_insertionSort _ l2).symm))
    (List.sorted_insertionSort _ l1) (List.sorted_insertionSort _ l2)

/-- Claim C4: the details-dialog key canonicalises by sorting, so two id
lists receive the same key if and only if their sorted id sequences are
equal (in particular permutations share a key), and invoking the details
dialog with a selection whose key is already present presents the existing
dialog unchanged instead of creating a second one. -/
theorem c4_details_dialog_keyed_by_sorted_ids (l1 l2 : List Nat) (st : ImplState)
    (ids1 ids2 : List Nat) (hperm : ids1.Perm ids2) :
    (get_details_dialog_key l1 = get_details_dialog_key l2 ↔
       l1.insertionSort (· ≤ ·) = l2.insertionSort (· ≤ ·))
    ∧ get_details_dialog_key ids1 = get_details_dialog_key ids2
    ∧ (((show_details_dialog_for_selected_torrents st ids1).1).details.lookup
         (get_details_dialog_key ids2)).isSome = true
    ∧ ∀ d : Nat,
        ((show_details_dialog_for_selected_torrents st ids1).1).details.lookup
            (get_details_dialog_key ids2) = some d →
        show_details_dialog_for_selected_torrents
            ((show_details_dialog_for_selected_torrents st ids1).1) ids2
          = (((show_details_dialog_for_selected_torrents st ids1).1),
             DetailsAction.present_existing d) := by
  have hkey := key_eq_of_perm hperm
  refine ⟨get_details_dialog_key_eq_iff l1 l2, hkey, ?_, ?_⟩
  · rw [← hkey]
    cases hl : st.details.lookup (get_details_dialog_key ids1) with
    | some d => simp [show_details_dialog_for_selected_torrents, hl]
    | none => simp [show_details_dialog_for_selected_torrents, hl]
  · intro d hd
    rw [show_details_dialog_for_selected_torrents]
    simp only [hd]

/-- Witness for C4: the selections `[2, 1]` and `[1, 2]` share the key, and
the second invocation presents the dialog the first one created. -/
theorem c4_witness :
    get_details_dialog_key [2, 1] = get_details_dialog_key [1, 2]
    ∧ show_details_dialog_for_selected_torrents
        ((show_details_dialog_for_selected_torrents impl0 [2, 1]).1) [1, 2]
      = (((show_details_dialog_for_selected_torrents impl0 [2, 1]).1),
         DetailsAction.present_existing 0) := by
  have h := c4_details_dialog_keyed_by_sorted_ids [2, 1] [1, 2] impl0 [2, 1] [1, 2] (by decide)
  exact ⟨h.2.1, h.2.2.2 0 (by decide)⟩

end TrGtk
